import Mathlib

/-!
Verification of the TradingView-to-Telegram signal relay.

This file shallowly embeds the parts of the repository that the checked
properties are about:

* `lib/database.py` — the Vercel-KV idempotency store (`VercelKV.exists`,
  `VercelKV.set`, `save_signal`, `mark_signal_sent`), modelled as explicit
  state passing over an association-list store, with the HTTP outcome of each
  KV round trip made an explicit parameter so that fault behaviour is visible.
* `lib/telegram_bot.py` — the bounded retry loop (`send_with_retry`) and the
  delivery pipeline (`send_signal_message`), with the success of each network
  attempt supplied by an oracle `results : Nat → Bool`.
* `lib/validators.py` — `validate_tradingview_payload`.
* `lib/config.py` — the routing resolver `get_chat_id_for_signal`.
* `lib/formatters.py` — `sanitize_message_text`.
* `lib/email_client.py` and `api/email_check.py` — the two free-text signal
  parsers, modelled character-exactly over `List Char`.

Python floats are embedded as exact rationals (`ℚ`); the checked properties
only compare, order, and test the sign of prices whose decimal literals are
such that the rational and IEEE-double comparisons agree.  Wall-clock values
(`datetime.utcnow()`) are passed in as parameters.
-/

namespace TVTG

set_option maxRecDepth 8000

/-- The persisted signal record of `save_signal` in `lib/database.py`:
the Signal Record fields plus the delivery-status fields. -/
structure SignalRecord where
  signal_id : String
  symbol : String
  timeframe : String
  event : String
  bar_time : Int
  entry : ℚ
  stop : ℚ
  target : ℚ
  rr : ℚ
  telegram_sent : Bool
  telegram_error : Option String
  retry_count : Nat
  created_at_utc : String
  sent_at_utc : Option String
  chat_id : Option String
deriving DecidableEq, Repr

/-- A value stored in the Vercel KV store: a full persisted signal record
(the JSON written under `signal:<id>`), a recent-signals entry (written under
`recent:<id>`), or an uninterpreted string (other keys). -/
inductive StoredVal where
  | sig (r : SignalRecord)
  | recent (signal_id symbol timeframe created_at_utc : String)
  | str (s : String)
deriving DecidableEq, Repr

/-- The KV store contents: key, value, and the expiry (`ex=` seconds) the
entry was last set with (`none` when set without expiry). -/
abbrev Store := List (String × StoredVal × Option Nat)

/-- Key membership, as checked by the `EXISTS` endpoint against the store
contents. -/
def storeHasKey (st : Store) (k : String) : Bool :=
  st.any (fun e => e.1 == k)

/-- Effect of a successful `SET key value ex` round trip: the key is bound to
the new value and expiry (any previous binding is replaced). -/
def storeWrite (st : Store) (k : String) (v : StoredVal) (ex : Option Nat) : Store :=
  (k, v, ex) :: st.filter (fun e => e.1 != k)

/-- Value lookup, as returned by the `GET` endpoint. -/
def storeRead (st : Store) (k : String) : Option StoredVal :=
  (st.find? (fun e => e.1 == k)).map (fun e => e.2.1)

/-- Expiry lookup: the `ex` the key was last set with. -/
def storeExpiry (st : Store) (k : String) : Option (Option Nat) :=
  (st.find? (fun e => e.1 == k)).map (fun e => e.2.2)

/-- Outcome of one KV REST round trip as seen by `VercelKV` in
`lib/database.py`: either the connection failed (`aiohttp.ClientError`) or an
HTTP response arrived with a status code and a numeric `result` field. -/
inductive NetOutcome where
  | conn_error
  | http (status : Nat) (result : Int)
deriving DecidableEq, Repr

/-- `VercelKV.exists` (`lib/database.py` lines 61–74): a connection error
raises `DatabaseError`; a 200 response yields `result > 0`; any other HTTP
status yields `False` (the key is reported absent). -/
def VercelKV.existsCall : NetOutcome → Except String Bool
  | .conn_error => .error "KV connection error"
  | .http status result => .ok (if status == 200 then decide (result > 0) else false)

/-- `VercelKV.set` (`lib/database.py` lines 45–59): a connection error raises
`DatabaseError`; otherwise the call returns whether the status was 200 (the
write took effect exactly in that case). -/
def VercelKV.setCall : NetOutcome → Except String Bool
  | .conn_error => .error "KV connection error"
  | .http status _ => .ok (status == 200)

/-- The record `save_signal` builds for a fresh signal (`lib/database.py`
lines 143–159): the Signal Record fields plus zeroed/defaulted
delivery-status fields. -/
def freshSignalRecord (signal_id symbol timeframe event : String) (bar_time : Int)
    (entry stop target rr : ℚ) (now : String) : SignalRecord :=
  { signal_id := signal_id
    symbol := symbol
    timeframe := timeframe
    event := event
    bar_time := bar_time
    entry := entry
    stop := stop
    target := target
    rr := rr
    telegram_sent := false
    telegram_error := none
    retry_count := 0
    created_at_utc := now
    sent_at_utc := none
    chat_id := none }

/-- `save_signal` (`lib/database.py` lines 121–184) with the HTTP outcome of
the `exists` and `set` round trips passed in explicitly.  It first calls
`kv.exists("signal:" ++ signal_id)`; if the key exists it returns `False`
without any write; otherwise it sets `signal:<id>` to the fresh record with
`ex = idempotency_ttl_days·24·60·60` and `recent:<id>` with `ex = 86400`, and
returns `True` (the boolean results of the `set` calls are ignored).  A
raised `DatabaseError` is re-raised as `DatabaseError ("Failed to save
signal: …")`. -/
def save_signal (ttlDays : Nat) (now : String)
    (existsOutcome setOutcome : NetOutcome) (st : Store)
    (signal_id symbol timeframe event : String) (bar_time : Int)
    (entry stop target rr : ℚ) : Except String (Bool × Store) :=
  match VercelKV.existsCall existsOutcome with
  | .error e => .error ("Failed to save signal: " ++ e)
  | .ok true => .ok (false, st)
  | .ok false =>
    match VercelKV.setCall setOutcome with
    | .error e => .error ("Failed to save signal: " ++ e)
    | .ok wrote =>
      if wrote then
        let data := freshSignalRecord signal_id symbol timeframe event bar_time
          entry stop target rr now
        let st1 := storeWrite st ("signal:" ++ signal_id) (.sig data)
          (some (ttlDays * 24 * 60 * 60))
        let st2 := storeWrite st1 ("recent:" ++ signal_id)
          (.recent signal_id symbol timeframe now) (some 86400)
        .ok (true, st2)
      else
        .ok (true, st)

/-- The `exists` outcome delivered by a healthy store: HTTP 200 with
`result` the number of matching keys. -/
def healthyExists (st : Store) (k : String) : NetOutcome :=
  .http 200 (if storeHasKey st k then 1 else 0)

/-- `mark_signal_sent` (`lib/database.py` lines 186–219), healthy store round
trips: reads `signal:<id>`; if absent returns `False` with no write.  With an
`error` it records the error string and increments `retry_count`; without one
it sets `telegram_sent`, `sent_at_utc` and `chat_id`.  The updated record is
written back with the idempotency TTL. -/
def mark_signal_sent (ttlDays : Nat) (now : String) (st : Store)
    (signal_id chat_id : String) (error : Option String) : Bool × Store :=
  match storeRead st ("signal:" ++ signal_id) with
  | some (.sig r) =>
    let r2 : SignalRecord :=
      match error with
      | some e => { r with telegram_error := some e, retry_count := r.retry_count + 1 }
      | none => { r with telegram_sent := true, sent_at_utc := some now,
                         chat_id := some chat_id }
    (true, storeWrite st ("signal:" ++ signal_id) (.sig r2)
      (some (ttlDays * 24 * 60 * 60)))
  | _ => (false, st)

/-- The sleep chosen after failed attempt `attempt`
(`lib/telegram_bot.py` line 122):
`settings.retry_delays_list[min(attempt, len(retry_delays_list) - 1)]`. -/
def delayFor (delays : List ℚ) (attempt : Nat) : ℚ :=
  delays.getD (min attempt (delays.length - 1)) 0

/-- The retry loop of `send_with_retry` (`lib/telegram_bot.py` lines
116–128), from attempt index `attempt` with `remaining` loop iterations left.
`results i` is whether the `send_message` call of attempt `i` succeeds
(a failing call raises `TelegramError`).  Returns whether a send succeeded
together with the sequence of sleeps performed (in seconds, in order):
after a failed attempt that is not the last one, the loop sleeps
`delays[min(attempt, len(delays) - 1)]`. -/
def retryLoop (results : Nat → Bool) (delays : List ℚ) :
    Nat → Nat → Bool × List ℚ
  | _, 0 => (false, [])
  | attempt, remaining + 1 =>
    if results attempt then (true, [])
    else if remaining = 0 then (false, [])
    else
      let d := delayFor delays attempt
      let r := retryLoop results delays (attempt + 1) remaining
      (r.1, d :: r.2)

/-- `send_with_retry` (`lib/telegram_bot.py` lines 113–128): up to
`maxRetries` attempts starting at attempt 0. -/
def send_with_retry (results : Nat → Bool) (maxRetries : Nat)
    (delays : List ℚ) : Bool × List ℚ :=
  retryLoop results delays 0 maxRetries

/-- Python `\s` on the ASCII range (the whitespace class used by `re` and
`str.strip` in the parsers). -/
def isPyWS (c : Char) : Bool :=
  c == ' ' || c == '\t' || c == '\n' || c == '\r' || c == '\x0b' || c == '\x0c'

/-- Python `str.strip()`: drop leading and trailing whitespace. -/
def pyStrip (l : List Char) : List Char :=
  ((l.dropWhile isPyWS).reverse.dropWhile isPyWS).reverse

/-- Python `str.upper()` on the ASCII range: upper-case each character. -/
def pyUpper (s : String) : String :=
  String.mk (s.data.map Char.toUpper)

/-- Python `str.strip()` at string type. -/
def pyStripStr (s : String) : String :=
  String.mk (pyStrip s.data)

/-- Routing configuration (`lib/config.py`): the parsed
`telegram_symbol_chat_map` and `telegram_tf_chat_map` JSON objects and the
default chat id. -/
structure RoutingCfg where
  symbol_chat_map : List (String × String)
  tf_chat_map : List (String × String)
  telegram_chat_id_default : String
deriving Repr

/-- Python `dict` membership/lookup over the association-list model. -/
def lookupMap (m : List (String × String)) (k : String) : Option String :=
  (m.find? (fun e => e.1 == k)).map (fun e => e.2)

/-- `Settings.get_chat_id_for_signal` (`lib/config.py` lines 157–170):
upper-case the symbol; return the symbol-map entry if present, else the
timeframe-map entry if present, else the default chat id. -/
def get_chat_id_for_signal (cfg : RoutingCfg) (symbol timeframe : String) : String :=
  let s := pyUpper symbol
  match lookupMap cfg.symbol_chat_map s with
  | some v => v
  | none =>
    match lookupMap cfg.tf_chat_map timeframe with
    | some v => v
    | none => cfg.telegram_chat_id_default

/-- `send_signal_message` (`lib/telegram_bot.py` lines 72–111), with the
outcome of each Telegram network attempt supplied by `results` (the message
text only influences those outcomes, which the oracle absorbs): resolve the
chat id, send with retry, then mark the signal sent on success or mark it
failed with the fixed error string after exhausting all retries. -/
def send_signal_message (cfg : RoutingCfg) (ttlDays : Nat) (now : String)
    (results : Nat → Bool) (maxRetries : Nat) (delays : List ℚ)
    (st : Store) (signal_id symbol timeframe : String) : Bool × Store :=
  let chat_id := get_chat_id_for_signal cfg symbol timeframe
  let success := (send_with_retry results maxRetries delays).1
  if success then
    let m := mark_signal_sent ttlDays now st signal_id chat_id none
    (true, m.2)
  else
    let m := mark_signal_sent ttlDays now st signal_id chat_id
      (some "Failed after all retries")
    (false, m.2)

/-- `sanitize_message_text` (`lib/formatters.py` lines 260–272) over the
code-point sequence of the text: drop every `<` and `>`, then truncate to the
first 4090 characters plus `"..."` when longer than 4096 characters. -/
def sanitize_message_text (text : List Char) : List Char :=
  let t := text.filter (fun c => !(c == '<' || c == '>'))
  if t.length > 4096 then t.take 4090 ++ "...".toList else t

/-- The text `send_message` (`lib/telegram_bot.py` lines 18–35) places into
the Telegram API payload: the input text after `sanitize_message_text`. -/
def send_message_payload_text (text : List Char) : List Char :=
  sanitize_message_text text

/-- The caller-visible outcome of `process_webhook` (`api/webhook.py` lines
144–213): HTTP status code, the `status` field of the JSON body, and whether
a Telegram delivery task was spawned (`asyncio.create_task`). -/
structure WebhookOutcome where
  statusCode : Nat
  status : String
  deliverySpawned : Bool
deriving DecidableEq, Repr

/-- `process_webhook` (`api/webhook.py` lines 144–213) after the
enabled-pairs check has passed: `save_signal` deciding the dedup outcome.
A raised exception is caught and answered with a 500 `error` body; a saved
signal is answered 200 `success` and delivery is spawned fire-and-forget;
an existing signal is answered 200 `duplicate` with no delivery. -/
def process_webhook (ttlDays : Nat) (now : String)
    (existsOutcome setOutcome : NetOutcome) (st : Store)
    (signal_id symbol timeframe event : String) (bar_time : Int)
    (entry stop target rr : ℚ) : WebhookOutcome × Store :=
  match save_signal ttlDays now existsOutcome setOutcome st signal_id symbol
      timeframe event bar_time entry stop target rr with
  | .error _ =>
    ({ statusCode := 500, status := "error", deliverySpawned := false }, st)
  | .ok (true, st2) =>
    ({ statusCode := 200, status := "success", deliverySpawned := true }, st2)
  | .ok (false, st2) =>
    ({ statusCode := 200, status := "duplicate", deliverySpawned := false }, st2)

/-- Where one `save_signal` caller stands in its store interaction: about to
issue the `exists` round trip, about to issue the `set` round trip (having
observed `exists = False`), or returned with `accepted`/`duplicate`. -/
inductive CallerPhase where
  | toCheck
  | toWrite
  | accepted
  | duplicate
deriving DecidableEq, Repr

/-- One store round trip of a `save_signal` caller against a healthy store,
exactly as the source sequences them: the `exists` check (lines 138–140)
answers from the current store contents and either terminates the caller
with `duplicate` or moves it to the `set`; the `set` (lines 163–167) writes
the record and terminates the caller with `accepted`.  The follow-up
`recent:` write does not affect acceptance and is omitted. -/
def raceStep (key : String) (v : StoredVal) (ex : Option Nat) :
    CallerPhase × Store → CallerPhase × Store
  | (.toCheck, st) =>
    if storeHasKey st key then (.duplicate, st) else (.toWrite, st)
  | (.toWrite, st) => (.accepted, storeWrite st key v ex)
  | (p, st) => (p, st)

/-- Two `save_signal` callers for the same key interleaved by a schedule:
each schedule entry lets the named caller (`false` = first, `true` = second)
perform its next store round trip on the shared store, starting from the
empty store. -/
def runRace (key : String) (v1 v2 : StoredVal) (ex : Option Nat)
    (sched : List Bool) : CallerPhase × CallerPhase × Store :=
  sched.foldl
    (fun s who =>
      if who then
        let r := raceStep key v2 ex (s.2.1, s.2.2)
        (s.1, r.1, r.2)
      else
        let r := raceStep key v1 ex (s.1, s.2.2)
        (r.1, s.2.1, r.2))
    (.toCheck, .toCheck, [])

/-- A webhook payload after JSON parsing, for `validate_tradingview_payload`:
all required keys present with their declared types (the dictionary-level
missing-key and type checks are prior stages of the same function). -/
structure TVPayload where
  event : String
  symbol : String
  timeframe : String
  bar_time : Int
  entry : ℚ
  stop : ℚ
  target : ℚ
  rr : ℚ
  signal_id : String
deriving DecidableEq, Repr

/-- `validate_tradingview_payload` (`lib/validators.py` lines 5–42) on a
typed payload: checks positivity of `entry`, `stop`, `target`, the long-only
ordering, and the allowed event; on success returns the payload with the
symbol upper-cased and stripped.  Each failed check raises `ValueError` with
the corresponding message. -/
def validate_tradingview_payload (d : TVPayload) : Except String TVPayload :=
  if d.entry ≤ 0 then .error "Entry price must be a positive number"
  else if d.stop ≤ 0 then .error "Stop price must be a positive number"
  else if d.target ≤ 0 then .error "Target price must be a positive number"
  else if d.stop ≥ d.entry then
    .error "Stop loss must be below entry price for long positions"
  else if d.target ≤ d.entry then
    .error "Target must be above entry price for long positions"
  else if d.event ∉ ["EMA_BOUNCE_BUY"] then
    .error ("Invalid event type: " ++ d.event)
  else
    .ok { d with symbol := pyStripStr (pyUpper d.symbol) }

/-- Python `str.split(sep)` for a one-character separator (used on `|`). -/
def splitOnChar (sep : Char) : List Char → List (List Char)
  | [] => [[]]
  | c :: rest =>
    match splitOnChar sep rest with
    | [] => [[]]
    | h :: t => if c == sep then [] :: h :: t else (c :: h) :: t

/-- Python `str.split(":", 1)` applied only when `":" in pair`: the text
before the first colon and the text after it. -/
def splitFirstColon : List Char → Option (List Char × List Char)
  | [] => none
  | c :: rest =>
    if c == ':' then some ([], rest)
    else (splitFirstColon rest).map (fun p => (c :: p.1, p.2))

/-- `dict` assignment: bind `k` to `v`, replacing any earlier binding. -/
def insertEntry (m : List (String × String)) (k v : String) :
    List (String × String) :=
  (k, v) :: m.filter (fun e => e.1 != k)

/-- The dictionary both parsers build from the pipe-split signal line:
segments without a colon are skipped, keys and values are stripped. -/
def buildDict (pieces : List (List Char)) : List (String × String) :=
  pieces.foldl
    (fun m piece =>
      match splitFirstColon piece with
      | some (k, v) => insertEntry m (String.mk (pyStrip k)) (String.mk (pyStrip v))
      | none => m)
    []

/-- Literal list-prefix test (regex literal matching at a position). -/
def charsPrefix : List Char → List Char → Bool
  | [], _ => true
  | _ :: _, [] => false
  | p :: ps, c :: cs => p == c && charsPrefix ps cs

/-- The literal marker `action:ENTRY|` both parsers anchor on. -/
def markerChars : List Char := "action:ENTRY|".toList

/-- A character matched by `[^|\s]` (the secret-token class). -/
def tokChar (c : Char) : Bool := !(c == '|' || isPyWS c)

/-- Recursion for the first `re.sub(r'\r\n\s*', '', body)` pass of
`EmailProcessor._parse_signal_content` (`api/email_check.py` line 189):
delete every `\r\n` together with the whitespace run that follows it,
scanning left to right.  The fuel only bounds the number of steps (each step
consumes at least one character), keeping the recursion structural. -/
def cleanCRLFAux : Nat → List Char → List Char
  | 0, l => l
  | _ + 1, [] => []
  | fuel + 1, '\r' :: '\n' :: rest => cleanCRLFAux fuel (rest.dropWhile isPyWS)
  | fuel + 1, c :: rest => c :: cleanCRLFAux fuel rest

/-- First cleaning pass, with enough fuel for the whole body. -/
def cleanPassCRLF (l : List Char) : List Char :=
  cleanCRLFAux l.length l

/-- Recursion for the second `re.sub(r'\n\s*', '', ·)` pass
(`api/email_check.py` line 190), fuelled the same way. -/
def cleanLFAux : Nat → List Char → List Char
  | 0, l => l
  | _ + 1, [] => []
  | fuel + 1, '\n' :: rest => cleanLFAux fuel (rest.dropWhile isPyWS)
  | fuel + 1, c :: rest => c :: cleanLFAux fuel rest

/-- Second cleaning pass, with enough fuel for the whole body. -/
def cleanPassLF (l : List Char) : List Char :=
  cleanLFAux l.length l

/-- Completion of the lazy part of the regex
`action:ENTRY\|.*?secret:[^|\s]+` from the position just after the marker:
`.*?` extends one character at a time (never across `\n`, which `.` cannot
match), preferring at each position to finish with the literal `secret:`
followed by a maximal non-empty `[^|\s]+` run.  Returns the consumed
characters, or `none` when no completion exists from here. -/
def lazySecret : List Char → Option (List Char)
  | [] => none
  | c :: rest =>
    if charsPrefix "secret:".toList (c :: rest)
        && !(((c :: rest).drop 7).takeWhile tokChar).isEmpty then
      some ("secret:".toList ++ ((c :: rest).drop 7).takeWhile tokChar)
    else if c == '\n' then none
    else (lazySecret rest).map (fun m => c :: m)

/-- `re.search(r'action:ENTRY\|.*?secret:[^|\s]+', cleaned)`
(`api/email_check.py` lines 195–196): scan start positions left to right;
at each occurrence of the marker try to complete the match, else keep
scanning.  Returns the matched text. -/
def searchSignalLine : List Char → Option (List Char)
  | [] => none
  | c :: rest =>
    if charsPrefix markerChars (c :: rest) then
      match lazySecret ((c :: rest).drop 13) with
      | some m => some (markerChars ++ m)
      | none => searchSignalLine rest
    else searchSignalLine rest

/-- Decimal-digit run to a natural number. -/
def digitsToNat (l : List Char) : Nat :=
  l.foldl (fun n c => n * 10 + (c.toNat - 48)) 0

/-- Non-empty run of decimal digits. -/
def allDigits (l : List Char) : Bool :=
  !l.isEmpty && l.all Char.isDigit

/-- Optional exponent suffix of a Python float literal (`e`/`E`, optional
sign, digits).  The pending value is carried as an integer mantissa `mant`
over the decimal scale `10 ^ scale` and assembled with `mkRat`, which the
exponent shifts up or down. -/
def applyExponent (mant : Nat) (scale : Nat) : List Char → Option ℚ
  | [] => some (mkRat mant (10 ^ scale))
  | c :: rest =>
    if c == 'e' || c == 'E' then
      match rest with
      | '+' :: ds =>
        if allDigits ds then
          some (mkRat (mant * 10 ^ digitsToNat ds) (10 ^ scale))
        else none
      | '-' :: ds =>
        if allDigits ds then
          some (mkRat mant (10 ^ (scale + digitsToNat ds)))
        else none
      | ds =>
        if allDigits ds then
          some (mkRat (mant * 10 ^ digitsToNat ds) (10 ^ scale))
        else none
    else none

/-- Unsigned part of a Python `float(str)` literal:
`digits[.digits]`, `.digits` or `digits.`, with optional exponent. -/
def parseUnsignedFloat (l : List Char) : Option ℚ :=
  let ipart := l.takeWhile Char.isDigit
  let rest := l.dropWhile Char.isDigit
  match rest with
  | '.' :: rest2 =>
    let fpart := rest2.takeWhile Char.isDigit
    let rest3 := rest2.dropWhile Char.isDigit
    if ipart.isEmpty && fpart.isEmpty then none
    else
      applyExponent (digitsToNat ipart * 10 ^ fpart.length + digitsToNat fpart)
        fpart.length rest3
  | _ =>
    if ipart.isEmpty then none
    else applyExponent (digitsToNat ipart) 0 rest

/-- Python `float(str)` on the finite decimal grammar the signal fields use
(optional surrounding whitespace, optional sign, decimal literal with
optional fraction and exponent), as an exact rational. -/
def parsePyFloat (l : List Char) : Option ℚ :=
  match pyStrip l with
  | '+' :: r => parseUnsignedFloat r
  | '-' :: r => (parseUnsignedFloat r).map Neg.neg
  | s => parseUnsignedFloat s

/-- Python `int(str)`: optional surrounding whitespace, optional sign,
decimal digits only. -/
def parsePyInt (l : List Char) : Option Int :=
  match pyStrip l with
  | '+' :: r => if allDigits r then some (digitsToNat r : Int) else none
  | '-' :: r => if allDigits r then some (-(digitsToNat r : Int)) else none
  | s => if allDigits s then some (digitsToNat s : Int) else none

/-- The required keys of `EmailProcessor._parse_signal_content`
(`api/email_check.py` line 221). -/
def requiredKeysProcessor : List String :=
  ["action", "symbol", "tf", "entry", "stop", "target", "rr", "signal_id"]

/-- `EmailProcessor._parse_signal_content` (`api/email_check.py` lines
185–243) with the wall clock passed in: clean line breaks, find the signal
line (whose regex requires a `secret:` segment), split it into a dictionary,
check the required keys, convert the numeric fields, and emit the record in
webhook shape — `tf` mapped to `timeframe`, `event` synthesized as the fixed
literal, and `bar_time` set to the current time. -/
def EmailProcessor.parse_signal_content (nowMs : Int) (body : List Char) :
    Option TVPayload := do
  let line ← searchSignalLine (cleanPassLF (cleanPassCRLF body))
  let m := buildDict (splitOnChar '|' line)
  if requiredKeysProcessor.all (fun k => (lookupMap m k).isSome) then
    let entry ← parsePyFloat ((lookupMap m "entry").getD "").toList
    let stop ← parsePyFloat ((lookupMap m "stop").getD "").toList
    let target ← parsePyFloat ((lookupMap m "target").getD "").toList
    let rr ← parsePyFloat ((lookupMap m "rr").getD "").toList
    pure
      { event := "EMA_BOUNCE_BUY"
        symbol := (lookupMap m "symbol").getD ""
        timeframe := (lookupMap m "tf").getD ""
        bar_time := nowMs
        entry := entry
        stop := stop
        target := target
        rr := rr
        signal_id := (lookupMap m "signal_id").getD "" }
  else none

/-- The dictionary `EmailClient._parse_signal_content` returns: the parsed
`key:value` fields with numerics converted, `bar_time` only when the text
carried one, and the synthesized `event`. -/
structure EmailClientSignal where
  action : String
  symbol : String
  tf : String
  entry : ℚ
  stop : ℚ
  target : ℚ
  rr : ℚ
  signal_id : String
  secret : String
  bar_time : Option Int
  event : String
deriving DecidableEq, Repr

/-- First search of `EmailClient._parse_signal_content`
(`lib/email_client.py` line 201), `re.search(r'action:ENTRY\|([^|\n]+)', ·)`:
some position carries the marker followed by at least one character that is
neither `|` nor a line break. -/
def clientSearchOne : List Char → Bool
  | [] => false
  | c :: rest =>
    (charsPrefix markerChars (c :: rest) &&
      match (c :: rest).drop 13 with
      | d :: _ => !(d == '|' || d == '\n')
      | [] => false)
    || clientSearchOne rest

/-- Second search (`lib/email_client.py` line 209),
`re.search(r'action:ENTRY\|[^|\n]*(?:\|[^|\n]*)*', ·)`: from the first
marker occurrence the greedy pattern consumes every following character up
to the next line break. -/
def clientSearchLine : List Char → Option (List Char)
  | [] => none
  | c :: rest =>
    if charsPrefix markerChars (c :: rest) then
      some (markerChars ++ ((c :: rest).drop 13).takeWhile (fun ch => !(ch == '\n')))
    else clientSearchLine rest

/-- The required keys of `EmailClient._parse_signal_content`
(`lib/email_client.py` line 225) — including `secret`. -/
def requiredKeysClient : List String :=
  ["action", "symbol", "tf", "entry", "stop", "target", "rr", "signal_id", "secret"]

/-- `EmailClient._parse_signal_content` (`lib/email_client.py` lines
187–256): both regex searches, the pipe/colon dictionary, the required-key
check (with `secret`), the exact-secret comparison, the numeric conversions
(`bar_time` converted only when present, left absent otherwise), and the
synthesized `event`.  Any failure yields `none`. -/
def EmailClient.parse_signal_content (body : List Char) :
    Option EmailClientSignal :=
  if !clientSearchOne body then none
  else
    match clientSearchLine body with
    | none => none
    | some line =>
      let m := buildDict (splitOnChar '|' line)
      if requiredKeysClient.all (fun k => (lookupMap m k).isSome) then
        if (lookupMap m "secret").getD "" == "walid-ema-bounce-2025" then do
          let entry ← parsePyFloat ((lookupMap m "entry").getD "").toList
          let stop ← parsePyFloat ((lookupMap m "stop").getD "").toList
          let target ← parsePyFloat ((lookupMap m "target").getD "").toList
          let rr ← parsePyFloat ((lookupMap m "rr").getD "").toList
          let bar_time ←
            match lookupMap m "bar_time" with
            | some v => (parsePyInt v.toList).map some
            | none => pure none
          pure
            { action := (lookupMap m "action").getD ""
              symbol := (lookupMap m "symbol").getD ""
              tf := (lookupMap m "tf").getD ""
              entry := entry
              stop := stop
              target := target
              rr := rr
              signal_id := (lookupMap m "signal_id").getD ""
              secret := (lookupMap m "secret").getD ""
              bar_time := bar_time
              event := "EMA_BOUNCE_BUY" }
        else none
      else none

/-- The email body of the claimed free-text example, exactly as written. -/
def exampleBody : List Char :=
  ("action:ENTRY|symbol:ETHUSDT|tf:60|entry:4787.12|stop:4720.45" ++
   "|target:4987.13|rr:3|signal_id:ETHUSDT_60_1").toList

/-- The same body with the secret segment the parsers require appended. -/
def exampleBodyWithSecret : List Char :=
  exampleBody ++ "|secret:walid-ema-bounce-2025".toList

/-! Helper lemmas about the store model. -/

/-- Reading a key straight after writing it yields the written value. -/
theorem storeRead_write_self (st : Store) (k : String) (v : StoredVal)
    (ex : Option Nat) : storeRead (storeWrite st k v ex) k = some v := by
  simp [storeRead, storeWrite, List.find?_cons]

/-- Finding a key other than the one a write replaced is unaffected by the
replacement's filtering. -/
theorem find_in_filtered (st : Store) (k k2 : String) (h : k2 ≠ k) :
    (st.filter (fun e => e.1 != k)).find? (fun e => e.1 == k2) =
      st.find? (fun e => e.1 == k2) := by
  induction st with
  | nil => rfl
  | cons e rest ih =>
    by_cases h1 : e.1 = k
    · have hk : ¬(e.1 != k) = true := by simp [bne, h1]
      have h2 : ¬(e.1 == k2) = true := by
        simp only [beq_iff_eq, h1]
        exact Ne.symm h
      rw [@List.filter_cons_of_neg _ (fun x => x.1 != k) e rest hk,
        @List.find?_cons_of_neg _ (fun x => x.1 == k2) e rest h2, ih]
    · have hk : (e.1 != k) = true := by simp [bne, h1]
      by_cases h3 : e.1 = k2
      · have h4 : (e.1 == k2) = true := beq_iff_eq.mpr h3
        rw [@List.filter_cons_of_pos _ (fun x => x.1 != k) e rest hk,
          @List.find?_cons_of_pos _ (fun x => x.1 == k2) e
            (rest.filter (fun x => x.1 != k)) h4,
          @List.find?_cons_of_pos _ (fun x => x.1 == k2) e rest h4]
      · have h4 : ¬(e.1 == k2) = true := by
          simp only [beq_iff_eq]
          exact h3
        rw [@List.filter_cons_of_pos _ (fun x => x.1 != k) e rest hk,
          @List.find?_cons_of_neg _ (fun x => x.1 == k2) e
            (rest.filter (fun x => x.1 != k)) h4,
          @List.find?_cons_of_neg _ (fun x => x.1 == k2) e rest h4, ih]

/-- Reading a different key after a write sees the previous store. -/
theorem storeRead_write_other (st : Store) (k k2 : String) (v : StoredVal)
    (ex : Option Nat) (h : k2 ≠ k) :
    storeRead (storeWrite st k v ex) k2 = storeRead st k2 := by
  have hb : (k == k2) = false := beq_eq_false_iff_ne.mpr (Ne.symm h)
  simp [storeRead, storeWrite, List.find?_cons, hb, find_in_filtered st k k2 h]

/-- Expiry of a key straight after writing it. -/
theorem storeExpiry_write_self (st : Store) (k : String) (v : StoredVal)
    (ex : Option Nat) : storeExpiry (storeWrite st k v ex) k = some ex := by
  simp [storeExpiry, storeWrite, List.find?_cons]

/-- Expiry of a different key after a write sees the previous store. -/
theorem storeExpiry_write_other (st : Store) (k k2 : String) (v : StoredVal)
    (ex : Option Nat) (h : k2 ≠ k) :
    storeExpiry (storeWrite st k v ex) k2 = storeExpiry st k2 := by
  have hb : (k == k2) = false := beq_eq_false_iff_ne.mpr (Ne.symm h)
  simp [storeExpiry, storeWrite, List.find?_cons, hb, find_in_filtered st k k2 h]

/-- The `recent:` and `signal:` keys of the same id differ. -/
theorem signal_key_ne_recent_key (id : String) :
    ("signal:" ++ id) ≠ ("recent:" ++ id) := by
  intro h
  have h2 : "signal:".data ++ id.data = "recent:".data ++ id.data :=
    congrArg String.data h
  have h3 : "signal:".data = "recent:".data := by
    exact List.append_cancel_right h2
  exact absurd h3 (by decide)

/-- C1: `save_signal` is the dedup gate.  When `signal:<id>` already exists
(healthy store), it returns `accepted = false` and leaves the store
untouched; otherwise it returns `accepted = true` and the store now maps
`signal:<id>` to the full record with `telegram_sent = false`,
`telegram_error = null`, `retry_count = 0`, `sent_at = null`,
`chat_id = null`, under an expiry of `idempotency_ttl_days` (default 7)
days' worth of seconds. -/
theorem save_signal_dedup_gate (ttlDays : Nat) (now : String) (st : Store)
    (signal_id symbol timeframe event : String) (bar_time : Int)
    (entry stop target rr : ℚ) :
    (storeHasKey st ("signal:" ++ signal_id) = true →
      save_signal ttlDays now (healthyExists st ("signal:" ++ signal_id))
        (.http 200 0) st signal_id symbol timeframe event bar_time entry stop
        target rr = .ok (false, st))
    ∧ (storeHasKey st ("signal:" ++ signal_id) = false →
      ∃ st2,
        save_signal ttlDays now (healthyExists st ("signal:" ++ signal_id))
          (.http 200 0) st signal_id symbol timeframe event bar_time entry stop
          target rr = .ok (true, st2)
        ∧ storeRead st2 ("signal:" ++ signal_id) = some (.sig
            { signal_id := signal_id, symbol := symbol, timeframe := timeframe,
              event := event, bar_time := bar_time, entry := entry,
              stop := stop, target := target, rr := rr, telegram_sent := false,
              telegram_error := none, retry_count := 0, created_at_utc := now,
              sent_at_utc := none, chat_id := none })
        ∧ storeExpiry st2 ("signal:" ++ signal_id) =
            some (some (ttlDays * 24 * 60 * 60))) := by
  constructor
  · intro h
    simp [save_signal, healthyExists, VercelKV.existsCall, h]
  · intro h
    refine ⟨storeWrite
      (storeWrite st ("signal:" ++ signal_id)
        (.sig (freshSignalRecord signal_id symbol timeframe event bar_time
          entry stop target rr now)) (some (ttlDays * 24 * 60 * 60)))
      ("recent:" ++ signal_id) (.recent signal_id symbol timeframe now)
      (some 86400), ?_, ?_, ?_⟩
    · simp [save_signal, healthyExists, VercelKV.existsCall, VercelKV.setCall, h]
    · rw [storeRead_write_other _ _ _ _ _ (signal_key_ne_recent_key signal_id),
        storeRead_write_self]
      rfl
    · rw [storeExpiry_write_other _ _ _ _ _ (signal_key_ne_recent_key signal_id),
        storeExpiry_write_self]

/-- A persisted record used by the concrete scenarios below. -/
def demoRecord : SignalRecord :=
  freshSignalRecord "BTCUSDT_60_123" "BTCUSDT" "60" "EMA_BOUNCE_BUY"
    1734567890000 100 95 115 3 "t0"

/-- A store that already holds `signal:BTCUSDT_60_123`. -/
def demoDupStore : Store :=
  [("signal:BTCUSDT_60_123", .sig demoRecord, some 604800)]

/-- C1 witness: with the default 7-day retention, reserving an already
present `signal_id` is refused without a write, and reserving a fresh one
stores the zeroed record under a 604800-second expiry. -/
theorem save_signal_dedup_gate_witness :
    (storeHasKey demoDupStore ("signal:" ++ "BTCUSDT_60_123") = true
      ∧ save_signal 7 "t1"
          (healthyExists demoDupStore ("signal:" ++ "BTCUSDT_60_123"))
          (.http 200 0) demoDupStore "BTCUSDT_60_123" "BTCUSDT" "60"
          "EMA_BOUNCE_BUY" 1734567890000 100 95 115 3
        = .ok (false, demoDupStore))
    ∧ (storeHasKey ([] : Store) ("signal:" ++ "BTCUSDT_60_123") = false
      ∧ ∃ st2,
          save_signal 7 "t1" (healthyExists [] ("signal:" ++ "BTCUSDT_60_123"))
            (.http 200 0) [] "BTCUSDT_60_123" "BTCUSDT" "60" "EMA_BOUNCE_BUY"
            1734567890000 100 95 115 3 = .ok (true, st2)
          ∧ storeRead st2 ("signal:" ++ "BTCUSDT_60_123") = some (.sig
              { signal_id := "BTCUSDT_60_123", symbol := "BTCUSDT",
                timeframe := "60", event := "EMA_BOUNCE_BUY",
                bar_time := 1734567890000, entry := 100, stop := 95,
                target := 115, rr := 3, telegram_sent := false,
                telegram_error := none, retry_count := 0,
                created_at_utc := "t1", sent_at_utc := none, chat_id := none })
          ∧ storeExpiry st2 ("signal:" ++ "BTCUSDT_60_123") =
              some (some (7 * 24 * 60 * 60))) :=
  ⟨⟨by decide,
    (save_signal_dedup_gate 7 "t1" demoDupStore "BTCUSDT_60_123" "BTCUSDT"
      "60" "EMA_BOUNCE_BUY" 1734567890000 100 95 115 3).1 (by decide)⟩,
   ⟨by decide,
    (save_signal_dedup_gate 7 "t1" [] "BTCUSDT_60_123" "BTCUSDT" "60"
      "EMA_BOUNCE_BUY" 1734567890000 100 95 115 3).2 (by decide)⟩⟩

/-- C2: the claim asserts that `save_signal`'s check-and-set is an atomic
single round-trip conditional write giving exactly one concurrent winner.
The source instead issues a separate `exists` read followed by a `set`
write, so in the interleaving where both callers run their `exists` before
either runs its `set`, both callers return `accepted = true` — two winners
for the same `signal_id`. -/
theorem reserve_race_two_winners :
    (runRace "signal:BTCUSDT_60_123" (.str "callerA") (.str "callerB")
        (some 604800) [false, true, false, true]).1 = .accepted
    ∧ (runRace "signal:BTCUSDT_60_123" (.str "callerA") (.str "callerB")
        (some 604800) [false, true, false, true]).2.1 = .accepted :=
  ⟨rfl, rfl⟩

/-- C3 counterexample: when the store answers the dedup check with an HTTP
error (status 500) rather than a connection failure, `VercelKV.exists`
returns `False` — so a signal that is in fact already stored is treated as
not a duplicate, the webhook answers 200 `success`, and delivery is
spawned.  This refutes the claim that a store error is never treated as
"not a duplicate" and never leads to delivery. -/
theorem store_error_treated_as_not_duplicate :
    VercelKV.existsCall (.http 500 1) = .ok false
    ∧ storeHasKey demoDupStore "signal:BTCUSDT_60_123" = true
    ∧ process_webhook 7 "t1" (.http 500 1) (.http 500 0) demoDupStore
        "BTCUSDT_60_123" "BTCUSDT" "60" "EMA_BOUNCE_BUY" 1734567890000
        100 95 115 3
      = ({ statusCode := 200, status := "success", deliverySpawned := true },
         demoDupStore) :=
  ⟨rfl, by decide, rfl⟩

/-- C3 (amended): when the store is unreachable (connection-level failure),
the dedup check raises, `save_signal` fails with a `DatabaseError`, and the
webhook answers 500 with no duplicate verdict and no delivery spawned.
(When the store is reachable but answers a non-200 status, the code instead
treats the key as absent — see the counterexample.) -/
theorem store_unreachable_aborts (ttlDays : Nat) (now : String)
    (setOutcome : NetOutcome) (st : Store)
    (signal_id symbol timeframe event : String) (bar_time : Int)
    (entry stop target rr : ℚ) :
    save_signal ttlDays now .conn_error setOutcome st signal_id symbol
        timeframe event bar_time entry stop target rr
      = .error "Failed to save signal: KV connection error"
    ∧ process_webhook ttlDays now .conn_error setOutcome st signal_id symbol
        timeframe event bar_time entry stop target rr
      = ({ statusCode := 500, status := "error", deliverySpawned := false },
         st) :=
  ⟨rfl, rfl⟩

/-- C4: the structured parser accepts a payload only if `entry`, `stop` and
`target` are all positive and `stop < entry < target`; any violating record
is rejected with a validation error. -/
theorem validate_accepts_only_long_ordered (d : TVPayload)
    (h : (validate_tradingview_payload d).isOk = true) :
    0 < d.entry ∧ 0 < d.stop ∧ 0 < d.target
      ∧ d.stop < d.entry ∧ d.entry < d.target := by
  unfold validate_tradingview_payload at h
  split_ifs at h with h1 h2 h3 h4 h5 h6
  all_goals try simp only [Except.isOk, Except.toBool, Bool.false_eq_true] at h
  exact ⟨not_le.mp h1, not_le.mp h2, not_le.mp h3, not_le.mp h4, not_le.mp h5⟩

/-- C4 witness: the round-trip payload with `entry = 100`, `stop = 95`,
`target = 115` is accepted, and indeed satisfies the constraints. -/
theorem validate_accepts_only_long_ordered_witness :
    0 < (100 : ℚ) ∧ 0 < (95 : ℚ) ∧ 0 < (115 : ℚ)
      ∧ (95 : ℚ) < 100 ∧ (100 : ℚ) < 115 :=
  validate_accepts_only_long_ordered
    ⟨"EMA_BOUNCE_BUY", " btcusdt ", "60", 1734567890000, 100, 95, 115, 3, "X1"⟩
    (by rfl)

/-- The routing configuration of the concrete delivery scenarios: no
overrides, default chat `default-chat`. -/
def demoCfg : RoutingCfg := ⟨[], [], "default-chat"⟩

/-- C5 counterexample: a delivery whose Telegram call fails on attempts 0
and 1 and succeeds on attempt 2 (with `telegram_max_retries = 3`) ends with
`telegram_sent = true` but `retry_count = 0`, not 2: the per-attempt
failures inside `send_with_retry` are never written to the store, and
`mark_signal_sent` is called once, without an error, after the loop. -/
theorem delivery_two_failures_retry_count_zero :
    (send_signal_message demoCfg 7 "t3" (fun i => i == 2) 3 [1, 2, 4]
        demoDupStore "BTCUSDT_60_123" "BTCUSDT" "60").1 = true
    ∧ ∃ r2,
        storeRead (send_signal_message demoCfg 7 "t3" (fun i => i == 2) 3
            [1, 2, 4] demoDupStore "BTCUSDT_60_123" "BTCUSDT" "60").2
          ("signal:" ++ "BTCUSDT_60_123") = some (.sig r2)
        ∧ r2.telegram_sent = true ∧ r2.retry_count = 0
        ∧ ¬r2.retry_count = 2 := by
  refine ⟨by decide,
    ⟨{ demoRecord with telegram_sent := true, sent_at_utc := some "t3",
                       chat_id := some "default-chat" },
     by decide, rfl, rfl, by decide⟩⟩

/-- C5 (amended): a delivery that fails exactly twice and succeeds on the
third attempt (with `telegram_max_retries = 3`) ends with the persisted
status `telegram_sent = true`, `sent_at` and `chat_id` filled in, and
`retry_count` unchanged from the stored record (0 for a freshly reserved
signal): per-attempt failures inside the retry loop are not persisted —
`retry_count` is only incremented when an entire delivery cycle exhausts
its retries. -/
theorem delivery_third_attempt_status (cfg : RoutingCfg) (ttlDays : Nat)
    (now : String) (results : Nat → Bool) (delays : List ℚ) (st : Store)
    (signal_id symbol timeframe : String) (r0 : SignalRecord)
    (h0 : results 0 = false) (h1 : results 1 = false) (h2 : results 2 = true)
    (hr : storeRead st ("signal:" ++ signal_id) = some (.sig r0)) :
    (send_signal_message cfg ttlDays now results 3 delays st signal_id symbol
        timeframe).1 = true
    ∧ storeRead (send_signal_message cfg ttlDays now results 3 delays st
          signal_id symbol timeframe).2 ("signal:" ++ signal_id)
      = some (.sig { r0 with telegram_sent := true, sent_at_utc := some now,
                             chat_id := some (get_chat_id_for_signal cfg
                               symbol timeframe) })
    ∧ ({ r0 with telegram_sent := true, sent_at_utc := some now,
                 chat_id := some (get_chat_id_for_signal cfg symbol timeframe) }
        : SignalRecord).retry_count = r0.retry_count := by
  have hs : (send_with_retry results 3 delays).1 = true := by
    simp [send_with_retry, retryLoop, h0, h1, h2]
  refine ⟨?_, ?_, rfl⟩
  · simp [send_signal_message, hs]
  · simp [send_signal_message, hs, mark_signal_sent, hr, storeRead_write_self]

/-- C5 witness: the amended statement at the concrete
fail-fail-succeed oracle over the stored demo record. -/
theorem delivery_third_attempt_status_witness :
    (send_signal_message demoCfg 7 "t2" (fun i => i == 2) 3 [1, 2, 4]
        demoDupStore "BTCUSDT_60_123" "BTCUSDT" "60").1 = true
    ∧ storeRead (send_signal_message demoCfg 7 "t2" (fun i => i == 2) 3
          [1, 2, 4] demoDupStore "BTCUSDT_60_123" "BTCUSDT" "60").2
        ("signal:" ++ "BTCUSDT_60_123")
      = some (.sig { demoRecord with telegram_sent := true,
                                     sent_at_utc := some "t2",
                                     chat_id := some (get_chat_id_for_signal
                                       demoCfg "BTCUSDT" "60") })
    ∧ ({ demoRecord with telegram_sent := true, sent_at_utc := some "t2",
                         chat_id := some (get_chat_id_for_signal demoCfg
                           "BTCUSDT" "60") }
        : SignalRecord).retry_count = demoRecord.retry_count :=
  delivery_third_attempt_status demoCfg 7 "t2" (fun i => i == 2) [1, 2, 4]
    demoDupStore "BTCUSDT_60_123" "BTCUSDT" "60" demoRecord rfl rfl rfl
    (by decide)

/-- Closed form of the retry loop: if some attempt in the window succeeds,
the loop stops at the first such attempt having slept once after each
earlier (failed) attempt; otherwise it performs every attempt and sleeps
after each but the last. -/
theorem retryLoop_closed (results : Nat → Bool) (delays : List ℚ)
    (remaining : Nat) : ∀ attempt : Nat,
    retryLoop results delays attempt remaining =
      match (List.range' attempt remaining).find? results with
      | some j => (true, (List.range' attempt (j - attempt)).map (delayFor delays))
      | none =>
        (false, (List.range' attempt (remaining - 1)).map (delayFor delays)) := by
  induction remaining with
  | zero =>
    intro attempt
    simp [retryLoop, List.range']
  | succ rem ih =>
    intro attempt
    rw [List.range'_succ]
    by_cases ha : results attempt
    · rw [List.find?_cons_of_pos _ ha]
      simp [retryLoop, ha, Nat.sub_self, List.range']
    · rw [List.find?_cons_of_neg _ (by simp [ha])]
      cases rem with
      | zero =>
        simp [retryLoop, ha, List.range']
      | succ m =>
        have hstep : retryLoop results delays attempt (m + 1 + 1) =
            ((retryLoop results delays (attempt + 1) (m + 1)).1,
              delayFor delays attempt ::
                (retryLoop results delays (attempt + 1) (m + 1)).2) := by
          simp [retryLoop, ha]
        rw [hstep, ih (attempt + 1)]
        cases hf : (List.range' (attempt + 1) (m + 1)).find? results with
        | some j =>
          have hj : attempt + 1 ≤ j :=
            (List.mem_range'_1.mp (List.mem_of_find?_eq_some hf)).1
          have hdiff : j - attempt = (j - (attempt + 1)) + 1 := by omega
          simp only [hf, hdiff, List.range'_succ, List.map_cons]
        | none =>
          have hsub : m + 1 + 1 - 1 = m + 1 := rfl
          simp only [hf, hsub, List.range'_succ, List.map_cons, Nat.add_sub_cancel]

/-- C6: the delivery retry loop makes at most `maxRetries` attempts,
returns success at the first successful attempt, sleeps
`delays[min(i, len(delays) - 1)]` after each failed attempt that is not the
last (so the last configured delay is reused when attempts outnumber the
delays, and no sleep follows the final attempt), and reports failure after
exhausting all attempts.  The hypothesis restricts to non-empty delay
schedules, where the Python indexing is defined (the default is `1,2,4`). -/
theorem send_with_retry_schedule (results : Nat → Bool) (maxRetries : Nat)
    (delays : List ℚ) (_hne : delays ≠ []) :
    send_with_retry results maxRetries delays =
      match (List.range maxRetries).find? results with
      | some j => (true, (List.range j).map (delayFor delays))
      | none => (false, (List.range (maxRetries - 1)).map (delayFor delays)) := by
  rw [send_with_retry, retryLoop_closed]
  simp [List.range_eq_range']

/-- C6 witness: with the default three attempts and delays `1, 2, 4`,
failing twice then succeeding sleeps `1` then `2` and succeeds; with five
attempts all failing, the loop sleeps `1, 2, 4, 4` (final delay reused,
none after the last attempt) and fails. -/
theorem send_with_retry_schedule_witness :
    ([1, 2, 4] : List ℚ) ≠ []
    ∧ send_with_retry (fun i => i == 2) 3 [1, 2, 4] = (true, [1, 2])
    ∧ send_with_retry (fun _ => false) 5 [1, 2, 4] = (false, [1, 2, 4, 4]) := by
  refine ⟨by decide, ?_, ?_⟩
  · rw [send_with_retry_schedule (fun i => i == 2) 3 [1, 2, 4] (by decide)]
    decide
  · rw [send_with_retry_schedule (fun _ => false) 5 [1, 2, 4] (by decide)]
    decide

/-- C9: the routing resolver returns the symbol-override destination when an
exact (upper-cased) symbol mapping exists — in particular a symbol override
beats a simultaneously present timeframe override; otherwise the
timeframe-override destination when an exact timeframe mapping exists;
otherwise the fixed default destination. -/
theorem routing_priority (cfg : RoutingCfg) (symbol timeframe : String) :
    (∀ v, lookupMap cfg.symbol_chat_map (pyUpper symbol) = some v →
      get_chat_id_for_signal cfg symbol timeframe = v)
    ∧ (lookupMap cfg.symbol_chat_map (pyUpper symbol) = none →
      ∀ v, lookupMap cfg.tf_chat_map timeframe = some v →
        get_chat_id_for_signal cfg symbol timeframe = v)
    ∧ (lookupMap cfg.symbol_chat_map (pyUpper symbol) = none →
      lookupMap cfg.tf_chat_map timeframe = none →
        get_chat_id_for_signal cfg symbol timeframe
          = cfg.telegram_chat_id_default) := by
  refine ⟨?_, ?_, ?_⟩
  · intro v hv
    simp [get_chat_id_for_signal, hv]
  · intro hs v hv
    simp [get_chat_id_for_signal, hs, hv]
  · intro hs ht
    simp [get_chat_id_for_signal, hs, ht]

/-- C9 witness: with both overrides configured the symbol override wins;
with only the timeframe override it is used; with neither, the default. -/
theorem routing_priority_witness :
    get_chat_id_for_signal ⟨[("BTCUSDT", "sym-chat")], [("60", "tf-chat")],
        "default-chat"⟩ "btcusdt" "60" = "sym-chat"
    ∧ get_chat_id_for_signal ⟨[], [("60", "tf-chat")], "default-chat"⟩
        "btcusdt" "60" = "tf-chat"
    ∧ get_chat_id_for_signal ⟨[], [], "default-chat"⟩ "btcusdt" "60"
        = "default-chat" :=
  ⟨(routing_priority ⟨[("BTCUSDT", "sym-chat")], [("60", "tf-chat")],
      "default-chat"⟩ "btcusdt" "60").1 "sym-chat" (by decide),
   (routing_priority ⟨[], [("60", "tf-chat")], "default-chat"⟩ "btcusdt"
      "60").2.1 rfl "tf-chat" (by decide),
   (routing_priority ⟨[], [], "default-chat"⟩ "btcusdt" "60").2.2 rfl rfl⟩

/-- C10: the text `send_message` hands to the Telegram payload is the
sanitized text: it contains no `<` or `>`, never exceeds 4096 characters,
is the angle-stripped text truncated to its first 4090 characters plus
`"..."` when that stripped text exceeds 4096 characters, and is the
angle-stripped text unchanged otherwise. -/
theorem send_message_sanitizes (text : List Char) :
    ('<' ∉ send_message_payload_text text)
    ∧ ('>' ∉ send_message_payload_text text)
    ∧ (send_message_payload_text text).length ≤ 4096
    ∧ ((text.filter (fun c => !(c == '<' || c == '>'))).length > 4096 →
        send_message_payload_text text =
          (text.filter (fun c => !(c == '<' || c == '>'))).take 4090
            ++ "...".toList)
    ∧ ((text.filter (fun c => !(c == '<' || c == '>'))).length ≤ 4096 →
        send_message_payload_text text =
          text.filter (fun c => !(c == '<' || c == '>'))) := by
  unfold send_message_payload_text sanitize_message_text
  by_cases h : (text.filter (fun c => !(c == '<' || c == '>'))).length > 4096
  · rw [if_pos h]
    refine ⟨?_, ?_, ?_, fun _ => rfl, fun hle => absurd h (by omega)⟩
    · intro hmem
      rcases List.mem_append.mp hmem with hmem2 | hmem2
      · have := List.mem_filter.mp (List.mem_of_mem_take hmem2)
        simp at this
      · simp at hmem2
    · intro hmem
      rcases List.mem_append.mp hmem with hmem2 | hmem2
      · have := List.mem_filter.mp (List.mem_of_mem_take hmem2)
        simp at this
      · simp at hmem2
    · rw [List.length_append, List.length_take]
      have : "...".toList.length = 3 := rfl
      omega
  · rw [if_neg h]
    refine ⟨?_, ?_, by omega, fun hgt => absurd hgt h, fun _ => rfl⟩
    · intro hmem
      have := List.mem_filter.mp hmem
      simp at this
    · intro hmem
      have := List.mem_filter.mp hmem
      simp at this

/-- C10 witness: a 5000-character text with no angle brackets is truncated
to its first 4090 characters plus an ellipsis, and the hypothesis of the
truncation branch holds for it. -/
theorem send_message_sanitizes_witness :
    (((List.replicate 5000 'a').filter
        (fun c => !(c == '<' || c == '>'))).length > 4096)
    ∧ send_message_payload_text (List.replicate 5000 'a') =
        ((List.replicate 5000 'a').filter
          (fun c => !(c == '<' || c == '>'))).take 4090 ++ "...".toList := by
  have hf : (List.replicate 5000 'a').filter
      (fun c => !(c == '<' || c == '>')) = List.replicate 5000 'a' := by
    rw [List.filter_eq_self]
    intro c hc
    rw [List.eq_of_mem_replicate hc]
    decide
  have hlen : ((List.replicate 5000 'a').filter
      (fun c => !(c == '<' || c == '>'))).length > 4096 := by
    rw [hf, List.length_replicate]
    omega
  exact ⟨hlen,
    (send_message_sanitizes (List.replicate 5000 'a')).2.2.2.1 hlen⟩

/-- C7 counterexample: the claimed email body — which carries no `secret`
segment — is rejected by both free-text parsers and yields no Signal
Record.  The serverless parser's regex requires a `secret:` run to complete
a match; the `EmailClient` parser lists `secret` among its required keys. -/
theorem free_text_example_rejected_without_secret :
    EmailProcessor.parse_signal_content 0 exampleBody = none
    ∧ EmailClient.parse_signal_content exampleBody = none :=
  ⟨by decide, by decide⟩

/-- C7 (amended): with the secret segment the format requires appended to
the claimed line, the serverless free-text parser yields a Signal Record
with `symbol = "ETHUSDT"`, `entry = 4787.12` and `rr = 3.0`, the `tf` field
mapped to `timeframe`, and `event` synthesized as the fixed literal. -/
theorem free_text_example_parsed_with_secret :
    EmailProcessor.parse_signal_content 0 exampleBodyWithSecret =
      some { event := "EMA_BOUNCE_BUY", symbol := "ETHUSDT", timeframe := "60",
             bar_time := 0, entry := 4787.12, stop := 4720.45,
             target := 4987.13, rr := 3, signal_id := "ETHUSDT_60_1" } := by
  have h : EmailProcessor.parse_signal_content 0 exampleBodyWithSecret =
      some { event := "EMA_BOUNCE_BUY", symbol := "ETHUSDT", timeframe := "60",
             bar_time := 0, entry := mkRat 478712 (10 ^ 2),
             stop := mkRat 472045 (10 ^ 2), target := mkRat 498713 (10 ^ 2),
             rr := mkRat 3 (10 ^ 0), signal_id := "ETHUSDT_60_1" } := rfl
  have e1 : (mkRat 478712 (10 ^ 2) : ℚ) = 4787.12 := by
    norm_num [Rat.mkRat_eq_div]
  have e2 : (mkRat 472045 (10 ^ 2) : ℚ) = 4720.45 := by
    norm_num [Rat.mkRat_eq_div]
  have e3 : (mkRat 498713 (10 ^ 2) : ℚ) = 4987.13 := by
    norm_num [Rat.mkRat_eq_div]
  have e4 : (mkRat 3 (10 ^ 0) : ℚ) = 3 := by
    norm_num [Rat.mkRat_eq_div]
  rw [h, e1, e2, e3, e4]

/-- C8 counterexample: the `EmailClient` free-text parser accepts the
secret-bearing body, which carries no `bar_time` field, and leaves the
record's `bar_time` absent — it is not set to the current time (the parser
takes no clock input at all). -/
theorem email_client_leaves_bar_time_unset :
    (EmailClient.parse_signal_content exampleBodyWithSecret).map
      EmailClientSignal.bar_time = some none := by decide

/-- C8 (amended): the serverless free-text parser
(`api/email_check.py`) sets `bar_time` to the current processing time on
every record it accepts (bodies carry no `bar_time` it would honour).
The `EmailClient` parser instead leaves `bar_time` absent when the text has
none — see the counterexample. -/
theorem email_processor_bar_time_is_now (nowMs : Int) (body : List Char)
    (r : TVPayload)
    (h : EmailProcessor.parse_signal_content nowMs body = some r) :
    r.bar_time = nowMs := by
  unfold EmailProcessor.parse_signal_content at h
  obtain ⟨line, -, h⟩ := Option.bind_eq_some.mp h
  cases hif : requiredKeysProcessor.all
      (fun k => (lookupMap (buildDict (splitOnChar '|' line)) k).isSome) with
  | false =>
    simp only [hif, Bool.false_eq_true, if_false] at h
    exact Option.noConfusion h
  | true =>
    simp only [hif, if_true] at h
    obtain ⟨entry, -, h⟩ := Option.bind_eq_some.mp h
    obtain ⟨stop, -, h⟩ := Option.bind_eq_some.mp h
    obtain ⟨target, -, h⟩ := Option.bind_eq_some.mp h
    obtain ⟨rr, -, h⟩ := Option.bind_eq_some.mp h
    cases h
    rfl

/-- The record the serverless parser produces for the secret-bearing body
at clock value 42. -/
def exampleRecordAt42 : TVPayload :=
  { event := "EMA_BOUNCE_BUY", symbol := "ETHUSDT", timeframe := "60",
    bar_time := 42, entry := mkRat 478712 (10 ^ 2),
    stop := mkRat 472045 (10 ^ 2), target := mkRat 498713 (10 ^ 2),
    rr := mkRat 3 (10 ^ 0), signal_id := "ETHUSDT_60_1" }

/-- C8 witness: parsing the secret-bearing body at clock value 42 succeeds,
and the amended theorem yields `bar_time = 42` for it. -/
theorem email_processor_bar_time_is_now_witness :
    EmailProcessor.parse_signal_content 42 exampleBodyWithSecret =
      some exampleRecordAt42
    ∧ exampleRecordAt42.bar_time = 42 :=
  ⟨rfl, email_processor_bar_time_is_now 42 exampleBodyWithSecret
    exampleRecordAt42 rfl⟩

end TVTG

